import Mathlib

/-!
Shallow embedding of `server.py` from the `Mihuashi/match` image-similarity
service, and proofs of the specification claims about it.

The service wraps the `image_match` signature database over Elasticsearch.
The file `server.py` contains:
  * `FixSignatureES.search_single_record` — candidate retrieval + re-ranking;
  * helpers `ids_with_path`, `paths_at_location`, `count_images`,
    `delete_ids`, `dist_to_percent`, `get_image`;
  * Flask handlers `add_handler`, `delete_handler`, `search_handler`,
    `compare_handler`, `count_handler`, `list_handler`, `ping_handler`.

Python numbers are modelled as `ℚ` (distances, scores) and `ℤ`/`ℕ`
(offsets, sizes); Python dicts with a fixed key set are modelled as
structures; the Elasticsearch backend is modelled as an explicit list of
stored documents, with its query evaluation modelled from the spec (the
backend is an external collaborator).  Where the Python code returns a
Python-3 `filter` object (a lazy, single-use iterator) rather than a
list, the output carries an `isLazyFilter` flag recording that fact, and
a `distEngineCalled` flag records whether `normalized_distance` was
invoked.
-/

namespace MatchServer

/-- A document stored in the Elasticsearch index: engine id, the record
fields (`path`, optional `url`, `signature`, optional `metadata`) and the
word-slot fields (`simple_word_i` → discretized value). -/
structure StoredDoc where
  id : String
  path : Option String
  url : Option String
  signature : List Int
  metadata : Option String
  words : List (String × Int)
deriving Repr, DecidableEq

/-- A search hit as returned to `search_single_record`: the `_source`
after the `excludes : simple_word_*` projection, so the word-slot fields
are absent, plus the engine `_id` and `_score`. -/
structure Hit where
  id : String
  score : ℚ
  path : Option String
  url : Option String
  signature : List Int
  metadata : Option String
deriving Repr, DecidableEq

/-- The body and parameters of the single `es.search` call issued by
`search_single_record`: the `should` term clauses, the `_source`
excludes patterns, and the `size` and `timeout` request parameters. -/
structure EsQuery where
  shouldTerms : List (String × Int)
  sourceExcludes : List String
  size : ℕ
  timeoutParam : ℕ
deriving Repr, DecidableEq

/-- The `SignatureES` configuration fields used by
`search_single_record`: `self.distance_cutoff`, `self.size`,
`self.timeout`. -/
structure SesConfig where
  distance_cutoff : ℚ
  size : ℕ
  timeout : ℕ
deriving Repr, DecidableEq

/-- The query record `rec` passed to `search_single_record`: the keys
`path` and `signature`, an optional `metadata` key, and the remaining
keys, which are exactly the word slots (`simple_word_i`). -/
structure QueryRecord where
  path : String
  signature : List Int
  metadata : Option String
  words : List (String × Int)
deriving Repr, DecidableEq

/-- One element of the `formatted_res` list built by
`search_single_record` (after the loop that attaches `dist`). -/
structure Row where
  id : String
  score : ℚ
  metadata : Option String
  path : Option String
  dist : ℚ
deriving Repr, DecidableEq

/-- The observable outcome of `search_single_record`: the rows the
returned value yields, whether that value is a Python-3 `filter` object
(lazy single-use iterator) as opposed to a materialized list, and
whether `normalized_distance` was invoked. -/
structure SSROutput where
  rows : List Row
  isLazyFilter : Bool
  distEngineCalled : Bool
deriving Repr, DecidableEq

/-- The `should` list and `es.search` arguments built by
`search_single_record`: one `term` clause per word slot of `rec` (after
`path`, `signature` and `metadata` are popped), `_source` excluding
`simple_word_*`, and the configured `size` and `timeout`. -/
def ssrQuery (ses : SesConfig) (rec : QueryRecord) : EsQuery :=
  { shouldTerms := rec.words
    sourceExcludes := ["simple_word_*"]
    size := ses.size
    timeoutParam := ses.timeout }

/-- Whether a stored document matches a `bool`/`should` query: it shares
at least one word-slot value with the query's term clauses. -/
def matchesShould (q : EsQuery) (d : StoredDoc) : Bool :=
  q.shouldTerms.any (fun t => d.words.contains t)

/-- The `_source` projection with `excludes : simple_word_*` applied to a
stored document: every field except the word slots, which are dropped. -/
def toHit (score : ℚ) (d : StoredDoc) : Hit :=
  { id := d.id
    score := score
    path := d.path
    url := d.url
    signature := d.signature
    metadata := d.metadata }

/-- Modelled from the spec: the backing search engine (an external
collaborator, §4.3/§6) evaluates a disjunctive `bool`/`should` query —
a document qualifies if it shares at least one word-slot value with the
query word set; at most `size` hits are returned; the `_source`
`excludes` projection drops the `simple_word_*` fields from every hit.
The per-hit `_score` is backend-defined and is abstracted as `sc`. -/
def esSearchModel (sc : StoredDoc → ℚ) (store : List StoredDoc) (q : EsQuery) :
    List Hit :=
  ((store.filter (fun d => matchesShould q d)).take q.size).map
    (fun d => toHit (sc d) d)

/-- The total number of scalar entries of `np.array sigs` for a
homogeneous list of signature rows (`sigs.size` in the Python code). -/
def npSize (sigs : List (List Int)) : ℕ :=
  (sigs.map List.length).sum

/-- One entry of the `formatted_res` list comprehension, before `dist`
is attached (`dist` is initialised to `0` and overwritten below):
`id` ← `_id`, `score` ← `_score`, `metadata` ← `_source.metadata`,
`path` ← `_source.url` falling back to `_source.path`. -/
def formatHit (h : Hit) : Row :=
  { id := h.id
    score := h.score
    metadata := h.metadata
    path := h.url <|> h.path
    dist := 0 }

/-- `FixSignatureES.search_single_record` (server.py:16-52).  The
Elasticsearch call is the modelled `esSearchModel` on the explicit
`store`; `nd` abstracts `normalized_distance` (batch form: a list of
candidate distances from the candidate signatures and the query
signature).  Mirrors the source line by line: pop `path`, `signature`,
`metadata`; build the `should` list; search; collect `sigs`; if
`sigs.size == 0` return the (materialized) empty list; otherwise compute
`dists`, build `formatted_res`, attach `dist`, and return the Python-3
`filter` object over the strict cutoff predicate. -/
def search_single_record (ses : SesConfig) (sc : StoredDoc → ℚ)
    (nd : List (List Int) → List Int → List ℚ)
    (store : List StoredDoc) (rec : QueryRecord) : SSROutput :=
  let res := esSearchModel sc store (ssrQuery ses rec)
  let sigs := res.map (fun h => h.signature)
  if npSize sigs = 0 then
    { rows := [], isLazyFilter := false, distEngineCalled := false }
  else
    let dists := nd sigs rec.signature
    let formatted := List.zipWith (fun h d => { formatHit h with dist := d })
      res dists
    { rows := formatted.filter (fun y => y.dist < ses.distance_cutoff)
      isLazyFilter := true
      distEngineCalled := true }

/-- C1: every candidate returned by `search_single_record` has
`dist < distance_cutoff` (strict), and a candidate whose distance equals
the cutoff exactly is excluded from the results. -/
theorem search_single_record_strict_cutoff (ses : SesConfig)
    (sc : StoredDoc → ℚ) (nd : List (List Int) → List Int → List ℚ)
    (store : List StoredDoc) (rec : QueryRecord) :
    (∀ r ∈ (search_single_record ses sc nd store rec).rows,
        r.dist < ses.distance_cutoff) ∧
    (∀ r : Row, r.dist = ses.distance_cutoff →
        r ∉ (search_single_record ses sc nd store rec).rows) := by
  constructor
  · intro r hr
    unfold search_single_record at hr
    by_cases hsz :
        npSize ((esSearchModel sc store (ssrQuery ses rec)).map
          (fun h => h.signature)) = 0
    · simp [hsz] at hr
    · simp only [hsz, if_neg, ite_false] at hr
      have := List.mem_filter.mp hr
      exact of_decide_eq_true this.2
  · intro r hre hr
    unfold search_single_record at hr
    by_cases hsz :
        npSize ((esSearchModel sc store (ssrQuery ses rec)).map
          (fun h => h.signature)) = 0
    · simp [hsz] at hr
    · simp only [hsz, if_neg, ite_false] at hr
      have := List.mem_filter.mp hr
      have hlt : r.dist < ses.distance_cutoff := of_decide_eq_true this.2
      exact absurd hre (ne_of_lt hlt)

/-- Witness for C1: a concrete one-document store and query under which
`search_single_record` returns a row, whose distance is then strictly
below the cutoff by the theorem. -/
theorem search_single_record_strict_cutoff_witness :
    ({ id := "id1", score := 1, metadata := none, path := some "a.jpg",
       dist := 0 } : Row).dist < (1 : ℚ) :=
  (search_single_record_strict_cutoff ⟨(1 : ℚ), 10, 60⟩ (fun _ => 1)
    (fun sigs _ => sigs.map (fun _ => 0))
    [⟨"id1", some "a.jpg", none, [1], none, [("simple_word_0", 3)]⟩]
    ⟨"q.jpg", [1], none, [("simple_word_0", 3)]⟩).1
    { id := "id1", score := 1, metadata := none, path := some "a.jpg",
      dist := 0 }
    (by decide)

/-- C2: when candidate retrieval returns zero candidates,
`search_single_record` returns the empty list as a success value, and
`normalized_distance` is never invoked. -/
theorem search_single_record_empty_short_circuit (ses : SesConfig)
    (sc : StoredDoc → ℚ) (nd : List (List Int) → List Int → List ℚ)
    (store : List StoredDoc) (rec : QueryRecord)
    (h : esSearchModel sc store (ssrQuery ses rec) = []) :
    search_single_record ses sc nd store rec =
      { rows := [], isLazyFilter := false, distEngineCalled := false } := by
  unfold search_single_record
  rw [h]
  simp [npSize]

/-- Witness for C2: on an empty store retrieval returns no candidates,
and the search returns the empty success value without calling the
distance engine. -/
theorem search_single_record_empty_short_circuit_witness :
    search_single_record ⟨(1 : ℚ), 10, 60⟩ (fun _ => 1)
      (fun sigs _ => sigs.map (fun _ => 0)) []
      ⟨"q.jpg", [1], none, [("simple_word_0", 3)]⟩ =
      { rows := [], isLazyFilter := false, distEngineCalled := false } :=
  search_single_record_empty_short_circuit ⟨(1 : ℚ), 10, 60⟩ (fun _ => 1)
    (fun sigs _ => sigs.map (fun _ => 0)) []
    ⟨"q.jpg", [1], none, [("simple_word_0", 3)]⟩ (by decide)

/-- C4: `search_single_record` issues a single disjunctive query with one
`should` term clause per word slot of the query record, requests at most
`self.size` results, excludes the `simple_word_*` fields from the hit
sources, and (under the modelled backend semantics) every returned
candidate is a stored document sharing at least one word-slot value with
the query, with the word-slot fields projected away. -/
theorem ssr_query_shape (ses : SesConfig) (sc : StoredDoc → ℚ)
    (store : List StoredDoc) (rec : QueryRecord) :
    (ssrQuery ses rec).shouldTerms = rec.words ∧
    (ssrQuery ses rec).sourceExcludes = ["simple_word_*"] ∧
    (ssrQuery ses rec).size = ses.size ∧
    (esSearchModel sc store (ssrQuery ses rec)).length ≤ ses.size ∧
    ∀ h ∈ esSearchModel sc store (ssrQuery ses rec),
      ∃ d ∈ store, h = toHit (sc d) d ∧ ∃ t ∈ rec.words, t ∈ d.words := by
  refine ⟨rfl, rfl, rfl, ?_, ?_⟩
  · calc (esSearchModel sc store (ssrQuery ses rec)).length
        = ((store.filter
            (fun d => matchesShould (ssrQuery ses rec) d)).take
              (ssrQuery ses rec).size).length := by
          simp [esSearchModel]
      _ ≤ (ssrQuery ses rec).size := List.length_take_le _ _
      _ = ses.size := rfl
  · intro h hm
    simp only [esSearchModel, List.mem_map] at hm
    obtain ⟨d, hd, rfl⟩ := hm
    have hd' : d ∈ store.filter (fun d => matchesShould (ssrQuery ses rec) d) :=
      List.mem_of_mem_take hd
    have hmem := List.mem_filter.mp hd'
    refine ⟨d, hmem.1, rfl, ?_⟩
    have hany := hmem.2
    simp only [matchesShould, List.any_eq_true] at hany
    obtain ⟨t, ht, htc⟩ := hany
    exact ⟨t, ht, by simpa using htc⟩

/-- Witness for C4: at a concrete store and query the retrieved
candidate count is within the configured size bound. -/
theorem ssr_query_shape_witness :
    (esSearchModel (fun _ => 1)
      [⟨"id1", some "a.jpg", none, [1], none, [("simple_word_0", 3)]⟩]
      (ssrQuery ⟨(1 : ℚ), 10, 60⟩
        ⟨"q.jpg", [1], none, [("simple_word_0", 3)]⟩)).length ≤ 10 :=
  (ssr_query_shape ⟨(1 : ℚ), 10, 60⟩ (fun _ => 1)
    [⟨"id1", some "a.jpg", none, [1], none, [("simple_word_0", 3)]⟩]
    ⟨"q.jpg", [1], none, [("simple_word_0", 3)]⟩).2.2.2.1

/-- Counterexample to C5: at a concrete non-empty candidate set,
`search_single_record` returns its filtered result as a Python-3
`filter` object — a lazy single-use iterator — without materializing it
before returning, so the caller does not receive a concrete
collection. -/
theorem ssr_returns_lazy_filter_counterexample :
    (search_single_record ⟨(1 : ℚ), 10, 60⟩ (fun _ => 1)
      (fun sigs _ => sigs.map (fun _ => 0))
      [⟨"id1", some "a.jpg", none, [1], none, [("simple_word_0", 3)]⟩]
      ⟨"q.jpg", [1], none, [("simple_word_0", 3)]⟩).isLazyFilter = true := by
  decide

/-- C5 as amended: whenever the candidate set is non-empty (so the
filtering branch runs), `search_single_record` returns the filtered
result as a lazy single-use `filter` iterator, not a materialized
collection; only the empty-candidate branch returns a concrete
(materialized) empty list.  Materialization happens in the caller when
the iterator is consumed. -/
theorem ssr_lazy_iff_nonempty_branch (ses : SesConfig) (sc : StoredDoc → ℚ)
    (nd : List (List Int) → List Int → List ℚ)
    (store : List StoredDoc) (rec : QueryRecord) :
    ((search_single_record ses sc nd store rec).isLazyFilter = true ↔
      npSize ((esSearchModel sc store (ssrQuery ses rec)).map
        (fun h => h.signature)) ≠ 0) ∧
    ((search_single_record ses sc nd store rec).isLazyFilter = false →
      search_single_record ses sc nd store rec =
        { rows := [], isLazyFilter := false, distEngineCalled := false }) := by
  unfold search_single_record
  by_cases hsz :
      npSize ((esSearchModel sc store (ssrQuery ses rec)).map
        (fun h => h.signature)) = 0
  · simp [hsz]
  · simp [hsz]

/-- Witness for C5's amended claim: at a concrete non-empty candidate
set the returned value is the lazy iterator. -/
theorem ssr_lazy_iff_nonempty_branch_witness :
    (search_single_record ⟨(2 : ℚ), 10, 60⟩ (fun _ => 1)
      (fun sigs _ => sigs.map (fun _ => 0))
      [⟨"id2", some "b.jpg", none, [5], none, [("simple_word_1", 7)]⟩]
      ⟨"q2.jpg", [5], none, [("simple_word_1", 7)]⟩).isLazyFilter = true :=
  (ssr_lazy_iff_nonempty_branch ⟨(2 : ℚ), 10, 60⟩ (fun _ => 1)
    (fun sigs _ => sigs.map (fun _ => 0))
    [⟨"id2", some "b.jpg", none, [5], none, [("simple_word_1", 7)]⟩]
    ⟨"q2.jpg", [5], none, [("simple_word_1", 7)]⟩).1.mpr (by decide)

/-! ### Add / delete semantics over the index (server.py:76-138)

For the path-level CRUD claims the index is modelled by the fields the
handlers consult: the engine-assigned `id` and the `path` field of each
stored record. -/

/-- A stored record as seen by the path-level CRUD handlers: its
engine-assigned identifier and its `path` field. -/
structure IndexedRec where
  id : String
  path : String
deriving Repr, DecidableEq

/-- `ids_with_path` (server.py:76-80): the identifiers of all records
whose `path` field exactly matches `path`. -/
def ids_with_path (store : List IndexedRec) (path : String) : List String :=
  (store.filter (fun r => r.path == path)).map (fun r => r.id)

/-- `delete_ids` (server.py:92-94): `es.delete` each identifier with
`ignore=404`, so deleting an absent identifier is a no-op, never an
error; the net effect on the index is removing every record whose id is
in `ids`. -/
def delete_ids (store : List IndexedRec) (ids : List String) :
    List IndexedRec :=
  store.filter (fun r => !(ids.contains r.id))

/-- `ses.add_image` as seen at the index level (called at
server.py:118): the backend commits one new record with an
engine-assigned fresh identifier and the given path. -/
def add_image (store : List IndexedRec) (path newId : String) :
    List IndexedRec :=
  store ++ [⟨newId, path⟩]

/-- `add_handler` (server.py:108-126) at the index level: compute
`old_ids = ids_with_path path` first, then insert the new record, then
delete every identifier in `old_ids`. -/
def add_handler (store : List IndexedRec) (path newId : String) :
    List IndexedRec :=
  let old_ids := ids_with_path store path
  delete_ids (add_image store path newId) old_ids

/-- `delete_handler` (server.py:128-138): delete every record whose
path matches, and unconditionally answer with `status: ok`. -/
def delete_handler (store : List IndexedRec) (path : String) :
    List IndexedRec × String :=
  (delete_ids store (ids_with_path store path), "ok")

/-- Any identifier reported by `ids_with_path` belongs to some stored
record. -/
theorem ids_with_path_subset (store : List IndexedRec) (path : String) :
    ∀ i ∈ ids_with_path store path, i ∈ store.map (fun r => r.id) := by
  intro i hi
  simp only [ids_with_path, List.mem_map, List.mem_filter] at hi
  obtain ⟨r, ⟨hr, _⟩, rfl⟩ := hi
  exact List.mem_map.mpr ⟨r, hr, rfl⟩

/-- A record of `store` whose path matches has its identifier in
`ids_with_path store path`. -/
theorem mem_ids_with_path (store : List IndexedRec) (path : String)
    (r : IndexedRec) (hr : r ∈ store) (hp : r.path = path) :
    r.id ∈ ids_with_path store path := by
  simp only [ids_with_path, List.mem_map, List.mem_filter]
  exact ⟨r, ⟨hr, by simp [hp]⟩, rfl⟩

/-- `List.contains` decides membership. -/
theorem contains_eq_decide_mem (l : List String) (a : String) :
    (l.contains a) = decide (a ∈ l) := by
  simp [List.elem_iff]

/-- Deleting the empty identifier set leaves the index unchanged. -/
theorem delete_ids_nil (store : List IndexedRec) :
    delete_ids store [] = store := by
  simp [delete_ids]

/-- After deleting all identifiers matching a path, no record with that
path remains. -/
theorem delete_ids_clears_path (store : List IndexedRec) (path : String) :
    (delete_ids store (ids_with_path store path)).filter
      (fun r => r.path == path) = [] := by
  rw [List.filter_eq_nil_iff]
  intro r hr
  simp only [delete_ids, List.mem_filter, Bool.not_eq_true'] at hr
  obtain ⟨hrs, hnc⟩ := hr
  intro hpp
  have hp : r.path = path := by simpa using hpp
  have hmem : r.id ∈ ids_with_path store path :=
    mem_ids_with_path store path r hrs hp
  rw [contains_eq_decide_mem] at hnc
  simp [hmem] at hnc

/-- C3: `add_handler` computes the prior identifiers for the path before
inserting, inserts the new record, then deletes exactly that previously
computed set; consequently (for a fresh engine-assigned identifier) the
new record is never among the deleted identifiers and afterwards exactly
one current record exists for the path — the new one. -/
theorem add_handler_replaces_path (store : List IndexedRec)
    (path newId : String)
    (hfresh : newId ∉ store.map (fun r => r.id)) :
    newId ∉ ids_with_path store path ∧
    (add_handler store path newId).filter (fun r => r.path == path) =
      [⟨newId, path⟩] := by
  have hnot : newId ∉ ids_with_path store path := fun h =>
    hfresh (ids_with_path_subset store path newId h)
  refine ⟨hnot, ?_⟩
  have hnil : (store.filter
      (fun r => !((ids_with_path store path).contains r.id))).filter
      (fun r => r.path == path) = [] := delete_ids_clears_path store path
  unfold add_handler add_image delete_ids
  rw [List.filter_append, List.filter_append, hnil]
  simp [contains_eq_decide_mem, hnot]

/-- Witness for C3: adding `"b"` for path `"p.jpg"` over a store already
holding `"a"` at that path leaves exactly the new record current. -/
theorem add_handler_replaces_path_witness :
    "b" ∉ ids_with_path [⟨"a", "p.jpg"⟩] "p.jpg" ∧
    (add_handler [⟨"a", "p.jpg"⟩] "p.jpg" "b").filter
      (fun r => r.path == "p.jpg") = [⟨"b", "p.jpg"⟩] :=
  add_handler_replaces_path [⟨"a", "p.jpg"⟩] "p.jpg" "b" (by decide)

/-- C7: delete is idempotent — the handler always answers `ok`, deleting
a path twice equals deleting it once, deleting a path with no matching
records leaves the index unchanged, and deleting an already-absent
identifier is a no-op rather than an error. -/
theorem delete_handler_idempotent (store : List IndexedRec) (path : String) :
    (delete_handler store path).2 = "ok" ∧
    delete_handler (delete_handler store path).1 path =
      delete_handler store path ∧
    ((∀ r ∈ store, r.path ≠ path) → (delete_handler store path).1 = store) ∧
    (∀ i, i ∉ store.map (fun r => r.id) → delete_ids store [i] = store) := by
  refine ⟨rfl, ?_, ?_, ?_⟩
  · have hids : ids_with_path (delete_handler store path).1 path = [] := by
      show ((delete_ids store (ids_with_path store path)).filter
        (fun r => r.path == path)).map (fun r => r.id) = []
      rw [delete_ids_clears_path store path]
      rfl
    show (delete_ids (delete_handler store path).1
      (ids_with_path (delete_handler store path).1 path), "ok") =
      delete_handler store path
    rw [hids, delete_ids_nil]
    rfl
  · intro hnone
    have hids : ids_with_path store path = [] := by
      show (store.filter (fun r => r.path == path)).map (fun r => r.id) = []
      rw [List.filter_eq_nil_iff.mpr]
      · rfl
      · intro r hr
        simp [hnone r hr]
    show delete_ids store (ids_with_path store path) = store
    rw [hids, delete_ids_nil]
  · intro i hi
    unfold delete_ids
    rw [List.filter_eq_self]
    intro r hr
    have hne : r.id ≠ i := fun h => hi (h ▸ List.mem_map.mpr ⟨r, hr, rfl⟩)
    simp [contains_eq_decide_mem, hne]

/-- Witness for C7: deleting the absent path `"missing.jpg"` twice from
a concrete store answers `ok` and leaves the store unchanged. -/
theorem delete_handler_idempotent_witness :
    (delete_handler [⟨"a", "p.jpg"⟩] "missing.jpg").2 = "ok" ∧
    (delete_handler [⟨"a", "p.jpg"⟩] "missing.jpg").1 = [⟨"a", "p.jpg"⟩] :=
  ⟨(delete_handler_idempotent [⟨"a", "p.jpg"⟩] "missing.jpg").1,
   (delete_handler_idempotent [⟨"a", "p.jpg"⟩] "missing.jpg").2.2.1
     (by decide)⟩

/-! ### Score presentation (server.py:96-97, 140-174) -/

/-- `dist_to_percent` (server.py:96-97). -/
def dist_to_percent (dist : ℚ) : ℚ :=
  (1 - dist) * 100

/-- One match produced by `ses.search_image`, as consumed by
`search_handler`: its `dist`, `path` and `metadata` entries. -/
structure SearchMatch where
  dist : ℚ
  path : Option String
  metadata : Option String
deriving Repr, DecidableEq

/-- One entry of the `result` list built by `search_handler`. -/
structure SearchResultEntry where
  score : ℚ
  filepath : Option String
  metadata : Option String
deriving Repr, DecidableEq

/-- The `result` list comprehension of `search_handler`
(server.py:154-158): one entry per match, with
`score = dist_to_percent dist`. -/
def search_handler_results (ms : List SearchMatch) :
    List SearchResultEntry :=
  ms.map (fun m => ⟨dist_to_percent m.dist, m.path, m.metadata⟩)

/-- The score computed by `compare_handler` (server.py:161-167):
`dist_to_percent` of the normalized distance of the two generated
signatures (`nd2` abstracts `gis.normalized_distance`). -/
def compare_handler_score (nd2 : List Int → List Int → ℚ)
    (sig1 sig2 : List Int) : ℚ :=
  dist_to_percent (nd2 sig1 sig2)

/-- C6: every presented similarity score — each search-result entry and
the compare score — is computed from the normalized distance as
`(1 - distance) * 100`. -/
theorem presented_scores_from_distance (ms : List SearchMatch)
    (nd2 : List Int → List Int → ℚ) (sig1 sig2 : List Int) :
    (∀ m ∈ ms,
      (⟨dist_to_percent m.dist, m.path, m.metadata⟩ : SearchResultEntry) ∈
          search_handler_results ms ∧
        dist_to_percent m.dist = (1 - m.dist) * 100) ∧
    compare_handler_score nd2 sig1 sig2 = (1 - nd2 sig1 sig2) * 100 := by
  refine ⟨?_, rfl⟩
  intro m hm
  exact ⟨List.mem_map.mpr ⟨m, hm, rfl⟩, rfl⟩

/-- Witness for C6: at a concrete match list with distance `0` the
presented score is `100`. -/
theorem presented_scores_from_distance_witness :
    (⟨dist_to_percent 0, some "a.jpg", none⟩ : SearchResultEntry) ∈
        search_handler_results [⟨0, some "a.jpg", none⟩] ∧
      dist_to_percent (0 : ℚ) = (1 - 0) * 100 :=
  (presented_scores_from_distance [⟨0, some "a.jpg", none⟩]
    (fun _ _ => 0) [] []).1 ⟨0, some "a.jpg", none⟩ (by decide)

/-! ### Listing (server.py:82-87, 186-201) -/

/-- `paths_at_location` (server.py:82-87): the backend's paginated scan
of the `path` field with `from_ = offset` and `size = limit`, both
already non-negative when called. -/
def paths_at_location (paths : List String) (offset limit : ℤ) :
    List String :=
  (paths.drop offset.toNat).take limit.toNat

/-- `list_handler` (server.py:186-201): read `offset` (default 0) and
`limit` (default 20) from the request, clamp both to be at least 0 with
`max`, and issue the paginated lookup.  The GET and POST branches differ
only in where the parameters are read from. -/
def list_handler (paths : List String) (offset limit : ℤ) : List String :=
  paths_at_location paths (max offset 0) (max limit 0)

/-- C8: `list_handler` clamps offset and limit to at least 0 before the
paginated lookup, and `list(-5, -1)` behaves exactly as `list(0, 0)`,
returning the empty sequence. -/
theorem list_handler_clamps (paths : List String) (offset limit : ℤ) :
    list_handler paths offset limit =
      paths_at_location paths (max offset 0) (max limit 0) ∧
    list_handler paths (-5) (-1) = list_handler paths 0 0 ∧
    list_handler paths (-5) (-1) = [] := by
  refine ⟨rfl, rfl, ?_⟩
  simp [list_handler, paths_at_location]

/-! ### Orientation expansion flag (server.py:62, 140-148) -/

/-- Modelled from the spec: the closed enumeration of orientation
transforms applied by the search library (`image_match`, an external
collaborator) when orientation expansion is enabled — the identity, the
three rotations and the two flips (§4.5, §9). -/
inductive Orientation
  | identity
  | rot90
  | rot180
  | rot270
  | flipHorizontal
  | flipVertical
deriving Repr, DecidableEq

/-- Modelled from the spec: the full orientation list used when
expansion is enabled. -/
def allTransforms : List Orientation :=
  [Orientation.identity, Orientation.rot90, Orientation.rot180,
   Orientation.rot270, Orientation.flipHorizontal,
   Orientation.flipVertical]

/-- Modelled from the spec: orientation selection inside
`ses.search_image` — when the `all_orientations` flag is true every
defined transform runs, otherwise only the identity orientation runs
(§4.5). -/
def orientationsRun (all_orientations : Bool) : List Orientation :=
  if all_orientations then allTransforms else [Orientation.identity]

/-- The flag computation of `search_handler` (server.py:143):
`request.form.get('all_orientations', all_orientations) == 'true'`,
where the second argument is the process-wide default read from the
`ALL_ORIENTATIONS` environment variable (server.py:62). -/
def searchAllOrientationsFlag (formValue : Option String)
    (defaultValue : String) : Bool :=
  (formValue.getD defaultValue) == "true"

/-- C9: the search runs with all orientations exactly when the
per-request `all_orientations` value — or the process-wide default when
the request omits it — is the string `true`; otherwise only the identity
orientation runs. -/
theorem orientation_flag_selection (formValue : Option String)
    (defaultValue : String) :
    (orientationsRun (searchAllOrientationsFlag formValue defaultValue) =
        allTransforms ↔ formValue.getD defaultValue = "true") ∧
    (formValue.getD defaultValue ≠ "true" →
      orientationsRun (searchAllOrientationsFlag formValue defaultValue) =
        [Orientation.identity]) ∧
    (formValue = none →
      searchAllOrientationsFlag formValue defaultValue =
        (defaultValue == "true")) := by
  refine ⟨?_, ?_, ?_⟩
  · constructor
    · intro h
      by_contra hne
      have hflag : searchAllOrientationsFlag formValue defaultValue = false := by
        simp [searchAllOrientationsFlag, hne]
      rw [hflag] at h
      simp only [orientationsRun, if_neg Bool.false_ne_true] at h
      exact absurd h (by decide)
    · intro h
      have hflag : searchAllOrientationsFlag formValue defaultValue = true := by
        simp [searchAllOrientationsFlag, h]
      rw [hflag]
      rfl
  · intro h
    have hflag : searchAllOrientationsFlag formValue defaultValue = false := by
      simp [searchAllOrientationsFlag, h]
    rw [hflag]
    rfl
  · intro h
    subst h
    rfl

/-- Witness for C9: with no per-request value and default `"false"`,
only the identity orientation runs. -/
theorem orientation_flag_selection_witness :
    orientationsRun (searchAllOrientationsFlag none "false") =
      [Orientation.identity] :=
  (orientation_flag_selection none "false").2.1 (by decide)

/-! ### Image input selection (server.py:99-103) -/

/-- The parts of a Flask request consulted by `get_image`: the form
fields and the uploaded files (field name → content bytes). -/
structure HttpRequest where
  form : List (String × String)
  files : List (String × List ℕ)
deriving Repr, DecidableEq

/-- `request.form` lookup: the value of the first field with the given
name, if any. -/
def formGet (req : HttpRequest) (key : String) : Option String :=
  (req.form.find? (fun kv => kv.1 == key)).map (fun kv => kv.2)

/-- `request.files[...].read()` lookup: the bytes of the first uploaded
file with the given field name, if any. -/
def filesGet (req : HttpRequest) (key : String) : Option (List ℕ) :=
  (req.files.find? (fun kv => kv.1 == key)).map (fun kv => kv.2)

/-- The image argument produced by `get_image`: either the URL string (a
location reference, `bytestream = False`) or the uploaded file's bytes
(`bytestream = True`). -/
inductive ImageInput
  | urlRef (url : String)
  | fileBytes (bytes : List ℕ)
deriving Repr, DecidableEq

/-- `get_image` (server.py:99-103): if the URL form field is present
return it with `bytestream = False`; only otherwise read the uploaded
file's bytes and return them with `bytestream = True` (`none` models the
`KeyError` when neither is present). -/
def get_image (req : HttpRequest) (url_field file_field : String) :
    Option (ImageInput × Bool) :=
  match formGet req url_field with
  | some u => some (ImageInput.urlRef u, false)
  | none =>
      (filesGet req file_field).map
        (fun b => (ImageInput.fileBytes b, true))

/-- C10: when the URL form field is present its value is taken as the
image (a location reference) with `bytestream = False` and the uploaded
files are ignored entirely (the result does not depend on them); the
uploaded file's bytes are read only when the URL field is absent. -/
theorem get_image_url_precedence (req : HttpRequest)
    (url_field file_field : String) :
    (∀ u, formGet req url_field = some u →
      get_image req url_field file_field =
        some (ImageInput.urlRef u, false)) ∧
    (∀ u files2, formGet req url_field = some u →
      get_image ⟨req.form, files2⟩ url_field file_field =
        get_image req url_field file_field) ∧
    (∀ b, get_image req url_field file_field =
        some (ImageInput.fileBytes b, true) →
      formGet req url_field = none ∧ filesGet req file_field = some b) ∧
    (formGet req url_field = none →
      get_image req url_field file_field =
        (filesGet req file_field).map
          (fun b => (ImageInput.fileBytes b, true))) := by
  refine ⟨?_, ?_, ?_, ?_⟩
  · intro u hu
    simp [get_image, hu]
  · intro u files2 hu
    have hu2 : formGet ⟨req.form, files2⟩ url_field = some u := hu
    simp [get_image, hu, hu2]
  · intro b hb
    cases hurl : formGet req url_field with
    | some u =>
        rw [show get_image req url_field file_field =
          some (ImageInput.urlRef u, false) by simp [get_image, hurl]] at hb
        simp at hb
    | none =>
        refine ⟨rfl, ?_⟩
        simp only [get_image, hurl, Option.map_eq_some'] at hb
        obtain ⟨b', hb', heq⟩ := hb
        obtain ⟨hbytes, -⟩ := Prod.mk.injEq .. ▸ heq
        cases heq
        exact hb'
  · intro hnone
    simp [get_image, hnone]

/-- Witness for C10: with both a `url` form field and an uploaded
`image` file present, the URL wins and `bytestream` is `False`. -/
theorem get_image_url_precedence_witness :
    get_image ⟨[("url", "http-example")], [("image", [1, 2, 3])]⟩
      "url" "image" = some (ImageInput.urlRef "http-example", false) :=
  (get_image_url_precedence ⟨[("url", "http-example")],
    [("image", [1, 2, 3])]⟩ "url" "image").1 "http-example" (by decide)

end MatchServer
